import Mathlib

/-!
Shallow embedding of the session-lifecycle core of
packages/plugin-twitter/src/index.ts: the TwitterClient constructor, the
TwitterClientManager registry (createClient, getClient, stopClient,
stopAllClients, getClientKey) and the credential resolution performed by
TwitterClientInterface.start.

Conventions of the embedding:
- JavaScript configuration values are modelled by the inductive JVal
  (undefined, null, booleans, strings); JS truthiness and the logical-or
  operator used by the credential chain are modelled by JVal.truthy and jor.
- The registry Map is an association list with distinct keys; Map.get,
  Map.set and Map.delete are mapGet, mapSet, mapDelete.
- Object identity of a constructed TwitterClient is modelled by a numeric
  id drawn from a fresh-id counter carried in the manager state.
- createClient contains exactly one suspension point, the line
  await client.client.init().  Everything before it (the 2FA-setting
  normalization, the existence check, the construction, the start of init)
  runs as one atomic segment, and everything after it (the map store and
  the return) as a second atomic segment; createSeg1 and finishTask are
  those two segments, and createClient is their sequential composition.
  The collaborator init() may fail; this is the initFails parameter.
- Observable side effects are recorded in an event trace.
-/

/-- JavaScript values that flow through the settings and credential code:
undefined, null, booleans and strings. -/
inductive JVal where
  | undef : JVal
  | jnull : JVal
  | jbool : Bool → JVal
  | jstr : String → JVal
  deriving DecidableEq, Repr

/-- JavaScript truthiness restricted to the value shapes above: undefined and
null are falsy, a boolean is its own truth value, a string is truthy iff it is
nonempty. -/
def JVal.truthy : JVal → Bool
  | JVal.jbool b => b
  | JVal.jstr s => decide (s ≠ "")
  | _ => false

/-- The JavaScript logical-or a || b on configuration values: returns a when a
is truthy, otherwise b. -/
def jor (a b : JVal) : JVal := if a.truthy then a else b

/-- The slice of IAgentRuntime consumed by the plugin: the mutable settings
store read by getSetting, the character-level settings and secrets objects,
and the agent (tenant) identifier.  A missing property reads as undefined, so
each source is modelled as a total function into JVal. -/
structure Runtime where
  settings : String → JVal
  charSettings : String → JVal
  charSecrets : String → JVal
  agentId : String

/-- runtime.setSetting(key, v, false): point update of the settings store. -/
def setSetting (rt : Runtime) (key : String) (v : JVal) : Runtime :=
  { rt with settings := fun k => if k = key then v else rt.settings k }

/-- A constructed TwitterClient: its identity (heap identity, modelled as a
numeric id), its fixed name, and whether the optional TwitterSpaceClient
sub-controller is present. -/
structure Session where
  id : Nat
  name : String
  space : Bool
  deriving DecidableEq, Repr

/-- The TwitterClient constructor.  The base client, post client and
interaction client are always built; the optional space controller is built
iff runtime.getSetting("TWITTER_SPACES_ENABLE") === true, a strict equality
with the boolean true. -/
def mkTwitterClient (rt : Runtime) (id : Nat) : Session :=
  { id := id
    name := "twitter"
    space := decide (rt.settings "TWITTER_SPACES_ENABLE" = JVal.jbool true) }

/-- Observable effects of the manager operations, recorded in order. -/
inductive Event where
  | setSettingEv : String → Event
  | checkExisting : Event
  | constructEv : Nat → Event
  | initStart : Event
  | initEnd : Event
  | storeEv : String → Event
  | stopEv : Nat → Event
  | deleteEv : String → Event
  | logErrorEv : Event
  | logInfoEv : Event
  deriving DecidableEq, Repr

/-- Recognizer for construction events. -/
def Event.isConstruct : Event → Bool
  | Event.constructEv _ => true
  | _ => false

/-- Recognizer for the start of the suspending initialization. -/
def Event.isInitStart : Event → Bool
  | Event.initStart => true
  | _ => false

/-- Recognizer for registry store events. -/
def Event.isStoreEv : Event → Bool
  | Event.storeEv _ => true
  | _ => false

/-- The state of the TwitterClientManager singleton: the key to client Map
(an association list with distinct keys) plus the fresh-id counter that
models heap allocation of client objects. -/
structure ManagerState where
  clients : List (String × Session)
  nextId : Nat
  deriving DecidableEq, Repr

/-- Map.get: first entry with the given key, if any. -/
def mapGet (key : String) : List (String × Session) → Option Session
  | [] => none
  | kv :: rest => if kv.1 = key then some kv.2 else mapGet key rest

/-- Map.set: replace the entry with the given key, or append a new one. -/
def mapSet (key : String) (v : Session) : List (String × Session) →
    List (String × Session)
  | [] => [(key, v)]
  | kv :: rest => if kv.1 = key then (key, v) :: rest else kv :: mapSet key v rest

/-- Map.delete: remove the entries with the given key. -/
def mapDelete (key : String) : List (String × Session) → List (String × Session)
  | [] => []
  | kv :: rest => if kv.1 = key then mapDelete key rest else kv :: mapDelete key rest

/-- getClientKey(clientId, agentId): the template literal clientId-agentId. -/
def getClientKey (clientId : String) (agentId : String) : String :=
  clientId ++ "-" ++ agentId

/-- The first two lines of createClient: if getSetting("TWITTER_2FA_SECRET")
=== null then setSetting("TWITTER_2FA_SECRET", undefined, false).  Returns
the (possibly) updated runtime and the emitted events. -/
def normalize2fa (rt : Runtime) : Runtime × List Event :=
  if rt.settings "TWITTER_2FA_SECRET" = JVal.jnull then
    (setSetting rt "TWITTER_2FA_SECRET" JVal.undef,
     [Event.setSettingEv "TWITTER_2FA_SECRET"])
  else (rt, [])

/-- Outcome of the first atomic segment of createClient: either an existing
client was found and returned, or a new client was constructed and its
(suspending) initialization has begun. -/
inductive Seg1Out where
  | existing : Session → Seg1Out
  | pending : Session → Seg1Out

/-- Result of the first atomic segment of createClient. -/
structure Seg1Res where
  rt : Runtime
  st : ManagerState
  out : Seg1Out
  trace : List Event

/-- The first atomic segment of createClient, everything up to and including
the start of await client.client.init(): the 2FA normalization, the
existence check via getClient(clientId, runtime.agentId), and, when no client
exists, the construction of the new TwitterClient. -/
def createSeg1 (rt : Runtime) (clientId : String) (st : ManagerState) : Seg1Res :=
  match mapGet (getClientKey clientId ((normalize2fa rt).1).agentId) st.clients with
  | some c =>
      ⟨(normalize2fa rt).1, st, Seg1Out.existing c,
       (normalize2fa rt).2 ++ [Event.checkExisting]⟩
  | none =>
      ⟨(normalize2fa rt).1, { st with nextId := st.nextId + 1 },
       Seg1Out.pending (mkTwitterClient ((normalize2fa rt).1) st.nextId),
       (normalize2fa rt).2 ++
         [Event.checkExisting, Event.constructEv st.nextId, Event.initStart]⟩

/-- The second atomic segment of createClient, run after the awaited init()
resolves: this.clients.set(this.getClientKey(clientId, runtime.agentId),
client), then the client is returned to the caller. -/
def finishTask (key : String) (out : Seg1Out) (st : ManagerState) :
    Session × ManagerState × List Event :=
  match out with
  | Seg1Out.existing c => (c, st, [])
  | Seg1Out.pending s =>
      (s, { st with clients := mapSet key s st.clients },
       [Event.initEnd, Event.storeEv key])

/-- Result of one full createClient call. -/
structure CCOut where
  res : Except Unit Session
  rt : Runtime
  st : ManagerState
  trace : List Event

/-- TwitterClientManager.createClient(runtime, clientId), run to completion
with no interleaved callers: segment one, then the awaited init() either
fails (initFails, the error is logged and rethrown, nothing is stored) or
succeeds, after which segment two stores the client and returns it. -/
def createClient (rt : Runtime) (clientId : String) (st : ManagerState)
    (initFails : Bool) : CCOut :=
  match createSeg1 rt clientId st with
  | ⟨rt1, st1, Seg1Out.existing c, ev⟩ => ⟨Except.ok c, rt1, st1, ev⟩
  | ⟨rt1, st1, Seg1Out.pending s, ev⟩ =>
      if initFails then ⟨Except.error (), rt1, st1, ev⟩
      else
        match finishTask (getClientKey clientId rt1.agentId) (Seg1Out.pending s) st1 with
        | (c, st2, ev2) => ⟨Except.ok c, rt1, st2, ev ++ ev2⟩

/-- Two sequential createClient calls with the same clientId against the same
runtime: the second call starts from the runtime and manager state left by
the first. -/
def createClientTwice (rt : Runtime) (clientId : String) (st : ManagerState) :
    CCOut × CCOut :=
  (createClient rt clientId st false,
   createClient (createClient rt clientId st false).rt clientId
     (createClient rt clientId st false).st false)

/-- Result of two overlapping createClient calls. -/
structure ConcOut where
  res1 : Session
  res2 : Session
  final : ManagerState
  trace : List Event

/-- Two overlapping createClient calls for the same key under the JavaScript
event loop: each call runs its first atomic segment, suspends at
await client.client.init(), and resumes its second segment after both have
suspended.  This is the schedule in which neither init() has resolved before
the other call begins. -/
def twoConcurrentCreates (rt : Runtime) (clientId : String) (st : ManagerState) :
    ConcOut :=
  match createSeg1 rt clientId st with
  | ⟨rt1, stA, out1, ev1⟩ =>
    match createSeg1 rt1 clientId stA with
    | ⟨rt2, stB, out2, ev2⟩ =>
      match finishTask (getClientKey clientId rt2.agentId) out1 stB with
      | (s1, stC, ev3) =>
        match finishTask (getClientKey clientId rt2.agentId) out2 stC with
        | (s2, stD, ev4) => ⟨s1, s2, stD, ev1 ++ ev2 ++ ev3 ++ ev4⟩

/-- TwitterClientManager.stopClient(clientId, agentId), with the behavior of
the awaited client.stop() call abstracted by stopThrows: when the entry
exists, stop is invoked; if it returns normally the entry is deleted and an
info line is logged; if it throws, the error is caught and logged and the
entry is left in place.  No exception escapes. -/
def stopClient (clientId : String) (agentId : String) (st : ManagerState)
    (stopThrows : Session → Bool) : ManagerState × List Event :=
  match mapGet (getClientKey clientId agentId) st.clients with
  | none => (st, [])
  | some c =>
      if stopThrows c then (st, [Event.stopEv c.id, Event.logErrorEv])
      else
        ({ st with clients := mapDelete (getClientKey clientId agentId) st.clients },
         [Event.stopEv c.id, Event.deleteEv (getClientKey clientId agentId),
          Event.logInfoEv])

/-- The loop body of stopAllClients over the snapshot of current entries:
for each entry, await client.stop() and delete the key, with a per-entry
try/catch that logs a throwing stop and continues with the next entry.
Deleting the entry just visited does not disturb iteration of a JS Map, so
iterating the snapshot list is faithful. -/
def stopAllAux (f : Session → Bool) :
    List (String × Session) → ManagerState → ManagerState × List Event
  | [], st => (st, [])
  | kc :: rest, st =>
      if f kc.2 then
        ((stopAllAux f rest st).1,
         [Event.stopEv kc.2.id, Event.logErrorEv] ++ (stopAllAux f rest st).2)
      else
        ((stopAllAux f rest { st with clients := mapDelete kc.1 st.clients }).1,
         [Event.stopEv kc.2.id, Event.deleteEv kc.1] ++
           (stopAllAux f rest { st with clients := mapDelete kc.1 st.clients }).2)

/-- TwitterClientManager.stopAllClients(), with the behavior of each awaited
client.stop() abstracted by stopThrows. -/
def stopAllClients (st : ManagerState) (stopThrows : Session → Bool) :
    ManagerState × List Event :=
  stopAllAux stopThrows st.clients st

/-- One credential field of the twitterConfig object built by
TwitterClientInterface.start:
(runtime.getSetting(k) as string) || runtime.character.settings?.k ||
runtime.character.secrets?.k. -/
def resolveField (rt : Runtime) (k : String) : JVal :=
  jor (jor (rt.settings k) (rt.charSettings k)) (rt.charSecrets k)

/-- The filtering step Object.entries(...).filter(([_, v]) => v !== undefined):
a field is kept iff its resolved value is not undefined. -/
def dropUndef (v : JVal) : Option JVal :=
  if v = JVal.undef then none else some v

/-- The filtered config object: each credential field is either absent
(resolved to undefined) or carries its resolved value. -/
structure CredentialSet where
  username : Option JVal
  password : Option JVal
  email : Option JVal
  twoFaSecret : Option JVal
  deriving DecidableEq, Repr

/-- The config value built by TwitterClientInterface.start: the four resolved
fields with undefined entries filtered out. -/
def buildConfig (rt : Runtime) : CredentialSet :=
  { username := dropUndef (resolveField rt "TWITTER_USERNAME")
    password := dropUndef (resolveField rt "TWITTER_PASSWORD")
    email := dropUndef (resolveField rt "TWITTER_EMAIL")
    twoFaSecret := dropUndef (resolveField rt "TWITTER_2FA_SECRET") }

/-- Truthiness of a possibly-absent config field: an absent property reads as
undefined, which is falsy. -/
def optTruthy : Option JVal → Bool
  | none => false
  | some v => v.truthy

/-- The guard in TwitterClientInterface.start that gates default-session
creation: config.TWITTER_USERNAME && (config.TWITTER_PASSWORD &&
config.TWITTER_EMAIL). -/
def sufficient (c : CredentialSet) : Bool :=
  optTruthy c.username && (optTruthy c.password && optTruthy c.email)

/-- Modelled from the spec: the well-known default client identifier passed to
createClient by the plugin start path.  The source computes it as
stringToUuid("default") using the host core package, which is not part of
this repository slice; it is a fixed string, modelled here by a fixed token. -/
def defaultClientId : String := "default"

/-- Result of TwitterClientInterface.start. -/
structure StartOut where
  rt : Runtime
  st : ManagerState
  trace : List Event

/-- TwitterClientInterface.start: resolve the credential fields, filter out
undefined ones, and when the sufficiency guard passes call createClient for
the default client id, catching (not propagating) any failure; otherwise do
nothing. -/
def start (rt : Runtime) (st : ManagerState) (initFails : Bool) : StartOut :=
  if sufficient (buildConfig rt) then
    ⟨(createClient rt defaultClientId st initFails).rt,
     (createClient rt defaultClientId st initFails).st,
     (createClient rt defaultClientId st initFails).trace⟩
  else ⟨rt, st, []⟩

/-- The per-field resolver as the specification words it: the first source
yielding a defined (non-undefined) value wins and later sources are not
consulted.  Stated only to compare against resolveField, which is what the
source computes. -/
def resolveFieldSpecDefined (rt : Runtime) (k : String) : JVal :=
  if rt.settings k ≠ JVal.undef then rt.settings k
  else if rt.charSettings k ≠ JVal.undef then rt.charSettings k
  else rt.charSecrets k

/-- A runtime with every configuration source empty and agent id "agent". -/
def rt0 : Runtime :=
  ⟨fun _ => JVal.undef, fun _ => JVal.undef, fun _ => JVal.undef, "agent"⟩

/-- The empty manager state. -/
def st0 : ManagerState := ⟨[], 0⟩

/-- A runtime whose runtime-level setting for the username is the defined but
falsy empty string while the character settings carry "b". -/
def rtC2 : Runtime :=
  { settings := fun k => if k = "TWITTER_USERNAME" then JVal.jstr "" else JVal.undef
    charSettings := fun k => if k = "TWITTER_USERNAME" then JVal.jstr "b" else JVal.undef
    charSecrets := fun _ => JVal.undef
    agentId := "agent" }

/-- A runtime whose runtime-level username setting is the truthy "a" and whose
character settings carry "b". -/
def rtC2w1 : Runtime :=
  { settings := fun k => if k = "TWITTER_USERNAME" then JVal.jstr "a" else JVal.undef
    charSettings := fun k => if k = "TWITTER_USERNAME" then JVal.jstr "b" else JVal.undef
    charSecrets := fun _ => JVal.undef
    agentId := "agent" }

/-- Like rtC2w1 but with different lower-precedence sources. -/
def rtC2w2 : Runtime :=
  { settings := fun k => if k = "TWITTER_USERNAME" then JVal.jstr "a" else JVal.undef
    charSettings := fun _ => JVal.undef
    charSecrets := fun k => if k = "TWITTER_USERNAME" then JVal.jstr "q" else JVal.undef
    agentId := "agent" }

/-- A runtime whose character secrets resolve the username to the defined but
falsy empty string and resolve password and email to truthy strings. -/
def rtC3 : Runtime :=
  { settings := fun _ => JVal.undef
    charSettings := fun _ => JVal.undef
    charSecrets := fun k =>
      if k = "TWITTER_USERNAME" then JVal.jstr ""
      else if k = "TWITTER_PASSWORD" then JVal.jstr "p"
      else if k = "TWITTER_EMAIL" then JVal.jstr "e" else JVal.undef
    agentId := "agent" }

/-- A runtime whose Spaces flag is the truthy string "true" rather than the
boolean true. -/
def rtSpacesStr : Runtime :=
  { rt0 with
    settings := fun k => if k = "TWITTER_SPACES_ENABLE" then JVal.jstr "true" else JVal.undef }

/-- A runtime whose Spaces flag is the boolean true. -/
def rtSpacesTrue : Runtime :=
  { rt0 with
    settings := fun k => if k = "TWITTER_SPACES_ENABLE" then JVal.jbool true else JVal.undef }

/-- A runtime whose stored two-factor secret setting reads as null. -/
def rtNull2fa : Runtime :=
  { rt0 with
    settings := fun k => if k = "TWITTER_2FA_SECRET" then JVal.jnull else JVal.undef }

/-- A sample stored session. -/
def sessW : Session := ⟨7, "twitter", false⟩

/-- A manager state already holding a session under the key for clientId "c"
and agent "agent". -/
def stReuse : ManagerState := ⟨[("c-agent", sessW)], 8⟩

/-- Two stored sessions used to exercise bulk teardown. -/
def sessA : Session := ⟨1, "twitter", false⟩

/-- Second stored session used to exercise bulk teardown. -/
def sessB : Session := ⟨2, "twitter", false⟩

/-- A manager state holding two sessions under distinct keys. -/
def stTwo : ManagerState := ⟨[("k1", sessA), ("k2", sessB)], 3⟩

/-- A stop behavior under which exactly the session with id 1 throws. -/
def throwsOnA (s : Session) : Bool := s.id == 1

/-! ### Helper lemmas about the embedding -/

@[simp]
theorem setSetting_agentId (rt : Runtime) (k : String) (v : JVal) :
    (setSetting rt k v).agentId = rt.agentId := rfl

@[simp]
theorem normalize2fa_agentId (rt : Runtime) :
    ((normalize2fa rt).1).agentId = rt.agentId := by
  by_cases h : rt.settings "TWITTER_2FA_SECRET" = JVal.jnull <;>
    simp [normalize2fa, h]

theorem normalize2fa_snd_cases (rt : Runtime) :
    (normalize2fa rt).2 = [] ∨
      (normalize2fa rt).2 = [Event.setSettingEv "TWITTER_2FA_SECRET"] := by
  by_cases h : rt.settings "TWITTER_2FA_SECRET" = JVal.jnull <;>
    simp [normalize2fa, h]

theorem countP_normalize2fa (rt : Runtime) (p : Event → Bool)
    (hp : p (Event.setSettingEv "TWITTER_2FA_SECRET") = false) :
    ((normalize2fa rt).2).countP p = 0 := by
  rcases normalize2fa_snd_cases rt with h | h <;> simp [h, List.countP_cons, hp]

theorem createSeg1_of_none (rt : Runtime) (cid : String) (st : ManagerState)
    (h : mapGet (getClientKey cid rt.agentId) st.clients = none) :
    createSeg1 rt cid st =
      ⟨(normalize2fa rt).1, { st with nextId := st.nextId + 1 },
       Seg1Out.pending (mkTwitterClient ((normalize2fa rt).1) st.nextId),
       (normalize2fa rt).2 ++
         [Event.checkExisting, Event.constructEv st.nextId, Event.initStart]⟩ := by
  have hkey : getClientKey cid ((normalize2fa rt).1).agentId =
      getClientKey cid rt.agentId := by rw [normalize2fa_agentId]
  unfold createSeg1
  rw [hkey, h]

theorem createSeg1_of_some (rt : Runtime) (cid : String) (st : ManagerState)
    (c : Session)
    (h : mapGet (getClientKey cid rt.agentId) st.clients = some c) :
    createSeg1 rt cid st =
      ⟨(normalize2fa rt).1, st, Seg1Out.existing c,
       (normalize2fa rt).2 ++ [Event.checkExisting]⟩ := by
  have hkey : getClientKey cid ((normalize2fa rt).1).agentId =
      getClientKey cid rt.agentId := by rw [normalize2fa_agentId]
  unfold createSeg1
  rw [hkey, h]

theorem createClient_of_some (rt : Runtime) (cid : String) (st : ManagerState)
    (b : Bool) (c : Session)
    (h : mapGet (getClientKey cid rt.agentId) st.clients = some c) :
    createClient rt cid st b =
      ⟨Except.ok c, (normalize2fa rt).1, st,
       (normalize2fa rt).2 ++ [Event.checkExisting]⟩ := by
  unfold createClient
  rw [createSeg1_of_some rt cid st c h]

theorem createClient_of_none_ok (rt : Runtime) (cid : String) (st : ManagerState)
    (h : mapGet (getClientKey cid rt.agentId) st.clients = none) :
    createClient rt cid st false =
      ⟨Except.ok (mkTwitterClient ((normalize2fa rt).1) st.nextId),
       (normalize2fa rt).1,
       ⟨mapSet (getClientKey cid rt.agentId)
          (mkTwitterClient ((normalize2fa rt).1) st.nextId) st.clients,
        st.nextId + 1⟩,
       (normalize2fa rt).2 ++
         [Event.checkExisting, Event.constructEv st.nextId, Event.initStart,
          Event.initEnd, Event.storeEv (getClientKey cid rt.agentId)]⟩ := by
  unfold createClient
  rw [createSeg1_of_none rt cid st h]
  simp [finishTask, normalize2fa_agentId]

theorem createClient_of_none_fail (rt : Runtime) (cid : String) (st : ManagerState)
    (h : mapGet (getClientKey cid rt.agentId) st.clients = none) :
    createClient rt cid st true =
      ⟨Except.error (), (normalize2fa rt).1,
       ⟨st.clients, st.nextId + 1⟩,
       (normalize2fa rt).2 ++
         [Event.checkExisting, Event.constructEv st.nextId, Event.initStart]⟩ := by
  unfold createClient
  rw [createSeg1_of_none rt cid st h]
  simp

theorem mapGet_mapSet_self (k : String) (v : Session)
    (m : List (String × Session)) : mapGet k (mapSet k v m) = some v := by
  induction m with
  | nil => simp [mapSet, mapGet]
  | cons kv rest ih =>
      by_cases h : kv.1 = k <;> simp [mapSet, mapGet, h, ih]

theorem mapGet_mapDelete_self (k : String) (m : List (String × Session)) :
    mapGet k (mapDelete k m) = none := by
  induction m with
  | nil => simp [mapDelete, mapGet]
  | cons kv rest ih =>
      by_cases h : kv.1 = k <;> simp [mapDelete, mapGet, h, ih]

theorem mapGet_mapDelete_ne (k k' : String) (m : List (String × Session))
    (hne : k ≠ k') : mapGet k (mapDelete k' m) = mapGet k m := by
  induction m with
  | nil => simp [mapDelete, mapGet]
  | cons kv rest ih =>
      by_cases h : kv.1 = k'
      · simp [mapDelete, mapGet, h, Ne.symm hne, ih]
      · simp [mapDelete, mapGet, h, ih]

theorem mapGet_of_mem_nodup (k : String) (c : Session)
    (m : List (String × Session)) (hnd : (m.map Prod.fst).Nodup)
    (hm : (k, c) ∈ m) : mapGet k m = some c := by
  induction m with
  | nil => simp at hm
  | cons kv rest ih =>
      have hnd' : (kv.1 :: rest.map Prod.fst).Nodup := by simpa using hnd
      have hhead : kv.1 ∉ rest.map Prod.fst := (List.nodup_cons.mp hnd').1
      have hnd2 : (rest.map Prod.fst).Nodup := (List.nodup_cons.mp hnd').2
      rcases List.mem_cons.mp hm with heq | htail
      · rw [← heq]
        simp [mapGet]
      · have hk : kv.1 ≠ k := by
          intro hc
          have hkin : k ∈ rest.map Prod.fst :=
            List.mem_map.mpr ⟨(k, c), htail, rfl⟩
          rw [hc] at hhead
          exact hhead hkin
        simp [mapGet, hk, ih hnd2 htail]

theorem stopAllAux_cons_true (f : Session → Bool) (kc0 : String × Session)
    (rest : List (String × Session)) (st : ManagerState) (hf : f kc0.2 = true) :
    stopAllAux f (kc0 :: rest) st =
      ((stopAllAux f rest st).1,
       [Event.stopEv kc0.2.id, Event.logErrorEv] ++ (stopAllAux f rest st).2) := by
  simp [stopAllAux, hf]

theorem stopAllAux_cons_false (f : Session → Bool) (kc0 : String × Session)
    (rest : List (String × Session)) (st : ManagerState) (hf : f kc0.2 = false) :
    stopAllAux f (kc0 :: rest) st =
      ((stopAllAux f rest { st with clients := mapDelete kc0.1 st.clients }).1,
       [Event.stopEv kc0.2.id, Event.deleteEv kc0.1] ++
         (stopAllAux f rest { st with clients := mapDelete kc0.1 st.clients }).2) := by
  simp [stopAllAux, hf]

theorem stopAllAux_none (f : Session → Bool) (l : List (String × Session))
    (st : ManagerState) (k : String) (h : mapGet k st.clients = none) :
    mapGet k (((stopAllAux f l st).1).clients) = none := by
  induction l generalizing st with
  | nil => simpa [stopAllAux] using h
  | cons kc rest ih =>
      by_cases hf : f kc.2
      · rw [stopAllAux_cons_true f kc rest st hf]
        exact ih st h
      · rw [stopAllAux_cons_false f kc rest st (by simpa using hf)]
        apply ih
        by_cases hne : k = kc.1
        · rw [hne]
          exact mapGet_mapDelete_self kc.1 st.clients
        · rw [show mapGet k (({ st with clients := mapDelete kc.1 st.clients } :
              ManagerState).clients) = mapGet k (mapDelete kc.1 st.clients) from rfl]
          rw [mapGet_mapDelete_ne k kc.1 st.clients hne]
          exact h

theorem stopAllAux_notin (f : Session → Bool) (l : List (String × Session))
    (st : ManagerState) (k : String) (hk : k ∉ l.map Prod.fst) :
    mapGet k (((stopAllAux f l st).1).clients) = mapGet k st.clients := by
  induction l generalizing st with
  | nil => simp [stopAllAux]
  | cons kc rest ih =>
      have hk1 : k ≠ kc.1 := by
        intro hc
        exact hk (by simp [hc])
      have hkr : k ∉ rest.map Prod.fst := by
        intro hc
        exact hk (by simp [hc])
      by_cases hf : f kc.2
      · rw [stopAllAux_cons_true f kc rest st hf]
        exact ih st hkr
      · rw [stopAllAux_cons_false f kc rest st (by simpa using hf)]
        rw [ih { st with clients := mapDelete kc.1 st.clients } hkr]
        exact mapGet_mapDelete_ne k kc.1 st.clients hk1

theorem stopAllAux_spec (f : Session → Bool) (l : List (String × Session))
    (st : ManagerState) (hnd : (l.map Prod.fst).Nodup)
    (hin : ∀ kc ∈ l, mapGet kc.1 st.clients = some kc.2) :
    ∀ kc ∈ l,
      Event.stopEv kc.2.id ∈ (stopAllAux f l st).2 ∧
      (f kc.2 = false → mapGet kc.1 (((stopAllAux f l st).1).clients) = none) ∧
      (f kc.2 = true → mapGet kc.1 (((stopAllAux f l st).1).clients) = some kc.2) := by
  induction l generalizing st with
  | nil =>
      intro kc hkc
      simp at hkc
  | cons kc0 rest ih =>
      have hnd' : (kc0.1 :: rest.map Prod.fst).Nodup := by simpa using hnd
      have hhead : kc0.1 ∉ rest.map Prod.fst := (List.nodup_cons.mp hnd').1
      have hnd2 : (rest.map Prod.fst).Nodup := (List.nodup_cons.mp hnd').2
      intro kc hkc
      by_cases hf : f kc0.2
      · rw [stopAllAux_cons_true f kc0 rest st hf]
        rcases List.mem_cons.mp hkc with heq | htail
        · subst heq
          refine ⟨by simp, ?_, ?_⟩
          · intro hfalse
            rw [hf] at hfalse
            cases hfalse
          · intro _
            have := stopAllAux_notin f rest st kc.1 hhead
            rw [this]
            exact hin kc (List.mem_cons_self kc rest)
        · have hrest := ih st hnd2 (fun kc2 h2 => hin kc2 (List.mem_cons_of_mem kc0 h2)) kc htail
          exact ⟨by simp [hrest.1], hrest.2.1, hrest.2.2⟩
      · have hf' : f kc0.2 = false := by simpa using hf
        rw [stopAllAux_cons_false f kc0 rest st hf']
        rcases List.mem_cons.mp hkc with heq | htail
        · subst heq
          refine ⟨by simp, ?_, ?_⟩
          · intro _
            apply stopAllAux_none
            exact mapGet_mapDelete_self kc.1 st.clients
          · intro htrue
            rw [hf'] at htrue
            cases htrue
        · have hin1 : ∀ kc2 ∈ rest,
              mapGet kc2.1 (({ st with clients := mapDelete kc0.1 st.clients } :
                ManagerState).clients) = some kc2.2 := by
            intro kc2 h2
            have hne : kc2.1 ≠ kc0.1 := by
              intro hc
              apply hhead
              rw [← hc]
              exact List.mem_map.mpr ⟨kc2, h2, rfl⟩
            rw [show (({ st with clients := mapDelete kc0.1 st.clients } :
                ManagerState).clients) = mapDelete kc0.1 st.clients from rfl]
            rw [mapGet_mapDelete_ne kc2.1 kc0.1 st.clients hne]
            exact hin kc2 (List.mem_cons_of_mem kc0 h2)
          have hrest := ih { st with clients := mapDelete kc0.1 st.clients } hnd2 hin1 kc htail
          exact ⟨by simp [hrest.1], hrest.2.1, hrest.2.2⟩

theorem dropUndef_eq_none (v : JVal) : dropUndef v = none ↔ v = JVal.undef := by
  by_cases h : v = JVal.undef <;> simp [dropUndef, h]

/-! ### Claim theorems -/

/-- Claim C2, counterexample: the resolver does not return the value of the
highest-precedence source that yields a defined value.  With the runtime
setting equal to the defined empty string and the character setting equal to
"b", the code (which chains the sources with the JavaScript logical-or, a
truthiness test) returns "b", not the defined runtime value, and differs from
the first-defined-wins resolver the claim describes. -/
theorem claim2_counterexample :
    rtC2.settings "TWITTER_USERNAME" ≠ JVal.undef ∧
    resolveField rtC2 "TWITTER_USERNAME" ≠ rtC2.settings "TWITTER_USERNAME" ∧
    resolveField rtC2 "TWITTER_USERNAME" ≠
      resolveFieldSpecDefined rtC2 "TWITTER_USERNAME" := by
  decide

/-- Claim C2, amended: for each credential field the resolver returns the
value of the highest-precedence source that yields a truthy value (a nonempty
string or true; null, undefined, false and the empty string fall through),
with precedence runtime setting, then character settings, then character
secrets; once a source yields a truthy value the later sources do not affect
the result; and a field is dropped from the resulting config exactly when its
resolved value is undefined. -/
theorem claim2_amended_resolution :
    (∀ rt : Runtime, ∀ k : String, resolveField rt k =
      if (rt.settings k).truthy then rt.settings k
      else if (rt.charSettings k).truthy then rt.charSettings k
      else rt.charSecrets k) ∧
    (∀ rt rt' : Runtime, ∀ k : String, rt.settings k = rt'.settings k →
      (rt.settings k).truthy = true → resolveField rt k = resolveField rt' k) ∧
    (∀ rt : Runtime,
      ((buildConfig rt).username = none ↔
        resolveField rt "TWITTER_USERNAME" = JVal.undef) ∧
      ((buildConfig rt).password = none ↔
        resolveField rt "TWITTER_PASSWORD" = JVal.undef) ∧
      ((buildConfig rt).email = none ↔
        resolveField rt "TWITTER_EMAIL" = JVal.undef) ∧
      ((buildConfig rt).twoFaSecret = none ↔
        resolveField rt "TWITTER_2FA_SECRET" = JVal.undef)) := by
  refine ⟨?_, ?_, ?_⟩
  · intro rt k
    by_cases h1 : (rt.settings k).truthy <;>
      by_cases h2 : (rt.charSettings k).truthy <;>
        simp [resolveField, jor, h1, h2]
  · intro rt rt' k hs ht
    have h1 : resolveField rt k = rt.settings k := by
      simp [resolveField, jor, ht]
    have ht' : (rt'.settings k).truthy = true := by
      rw [← hs]
      exact ht
    have h2 : resolveField rt' k = rt'.settings k := by
      simp [resolveField, jor, ht']
    rw [h1, h2, hs]
  · intro rt
    exact ⟨dropUndef_eq_none _, dropUndef_eq_none _, dropUndef_eq_none _,
      dropUndef_eq_none _⟩

/-- Claim C2, witness: with the runtime username setting truthy ("a"), two
runtimes differing arbitrarily in character settings and secrets resolve the
username field identically. -/
theorem claim2_amended_witness :
    resolveField rtC2w1 "TWITTER_USERNAME" =
      resolveField rtC2w2 "TWITTER_USERNAME" :=
  claim2_amended_resolution.2.1 rtC2w1 rtC2w2 "TWITTER_USERNAME"
    (by decide) (by decide)

/-- Claim C3, counterexample: the guard gating default-session creation is
not equivalent to presence of username, password and email.  Resolving a
runtime whose character secrets carry the defined empty string as username
yields a config in which all three fields are present, yet the guard fails
and start creates no session. -/
theorem claim3_counterexample :
    ((buildConfig rtC3).username).isSome = true ∧
    ((buildConfig rtC3).password).isSome = true ∧
    ((buildConfig rtC3).email).isSome = true ∧
    sufficient (buildConfig rtC3) = false ∧
    (start rtC3 st0 false).st = st0 ∧
    (start rtC3 st0 false).trace = [] := by
  decide

/-- Claim C3, amended: the guard holds iff username, password and email are
all present with truthy values (a present null or empty-string value fails
it); the two-factor secret never affects the outcome; and when the guard
fails, start performs no session creation and leaves the state unchanged. -/
theorem claim3_amended_sufficiency :
    (∀ c : CredentialSet, sufficient c =
      (optTruthy c.username && optTruthy c.password && optTruthy c.email)) ∧
    (∀ c : CredentialSet, ∀ v : Option JVal,
      sufficient { c with twoFaSecret := v } = sufficient c) ∧
    (∀ rt : Runtime, ∀ st : ManagerState, ∀ b : Bool,
      sufficient (buildConfig rt) = false → start rt st b = ⟨rt, st, []⟩) := by
  refine ⟨?_, ?_, ?_⟩
  · intro c
    simp [sufficient, Bool.and_assoc]
  · intro c v
    rfl
  · intro rt st b h
    simp [start, h]

/-- Claim C3, witness: on the counterexample runtime the guard fails, and
start returns with the manager state untouched and no events. -/
theorem claim3_amended_witness : start rtC3 st0 false = ⟨rtC3, st0, []⟩ :=
  claim3_amended_sufficiency.2.2 rtC3 st0 false (by decide)

/-- Claim C8, counterexample: the key derivation clientId-agentId is not
injective over all string pairs; the distinct pairs (a-b, c) and (a, b-c)
derive the same key a-b-c. -/
theorem claim8_counterexample :
    getClientKey "a-b" "c" = getClientKey "a" "b-c" ∧
    ("a-b", "c") ≠ (("a", "b-c") : String × String) := by
  decide

/-- Claim C8, amended: the key derivation is a deterministic function of the
pair; for a fixed clientId it is injective in the tenant id, so two different
tenants sharing a clientId never collide; and it is injective over all pairs
whose tenant ids have equal length, which covers fixed-width UUID agent ids.
It is not injective over arbitrary string pairs. -/
theorem claim8_amended_key_injective :
    (∀ c t t' : String, getClientKey c t = getClientKey c t' ↔ t = t') ∧
    (∀ c1 t1 c2 t2 : String, t1.length = t2.length →
      (getClientKey c1 t1 = getClientKey c2 t2 ↔ (c1 = c2 ∧ t1 = t2))) := by
  constructor
  · intro c t t'
    constructor
    · intro h
      have hd : c.data ++ ("-".data ++ t.data) =
          c.data ++ ("-".data ++ t'.data) := by
        have hdata := congrArg String.data h
        simpa [getClientKey, String.data_append, List.append_assoc] using hdata
      apply String.ext
      simpa using hd
    · intro h
      rw [h]
  · intro c1 t1 c2 t2 hlen
    constructor
    · intro h
      have hd : c1.data ++ ("-".data ++ t1.data) =
          c2.data ++ ("-".data ++ t2.data) := by
        have hdata := congrArg String.data h
        simpa [getClientKey, String.data_append, List.append_assoc] using hdata
      have hl : ("-".data ++ t1.data).length = ("-".data ++ t2.data).length := by
        have ht : t1.data.length = t2.data.length := hlen
        simp [List.length_append, ht]
      obtain ⟨hc, hrest⟩ := List.append_inj' hd hl
      have ht2 : t1.data = t2.data := by
        simpa using hrest
      exact ⟨String.ext hc, String.ext ht2⟩
    · intro h
      rw [h.1, h.2]

/-- Claim C8, witness: for a shared clientId, the keys of two same-length
tenant ids agree exactly when the tenant ids agree. -/
theorem claim8_amended_witness :
    getClientKey "c" "t1" = getClientKey "c" "t2" ↔
      (("c" : String) = "c" ∧ ("t1" : String) = "t2") :=
  claim8_amended_key_injective.2 "c" "t1" "c" "t2" (by decide)

/-- Claim C9: a constructed client carries the optional Spaces controller iff
the TWITTER_SPACES_ENABLE setting is strictly the boolean true; the truthy
string "true", false, and an absent setting all leave it absent. -/
theorem claim9_spaces_strict_flag :
    (∀ rt : Runtime, ∀ i : Nat, ((mkTwitterClient rt i).space = true ↔
      rt.settings "TWITTER_SPACES_ENABLE" = JVal.jbool true)) ∧
    (mkTwitterClient rtSpacesTrue 0).space = true ∧
    (mkTwitterClient rtSpacesStr 0).space = false ∧
    (mkTwitterClient rt0 0).space = false := by
  refine ⟨?_, by decide, by decide, by decide⟩
  intro rt i
  simp [mkTwitterClient]

/-- Claim C1: the code does not provide create-or-get atomicity.  Under the
schedule in which two createClient calls for the same key both reach their
await client.client.init() suspension before either resumes, the model of
the source performs two constructions and two initializations and the two
callers resolve to different sessions; and even in a single successful call
the registry store happens only after initialization completes, as the final
conjunct shows on the concrete trace, so the claimed claim-before-await
ordering does not hold. -/
theorem claim1_create_race :
    (twoConcurrentCreates rt0 "c" st0).res1 ≠ (twoConcurrentCreates rt0 "c" st0).res2 ∧
    ((twoConcurrentCreates rt0 "c" st0).trace.countP Event.isConstruct) = 2 ∧
    ((twoConcurrentCreates rt0 "c" st0).trace.countP Event.isInitStart) = 2 ∧
    (createClient rt0 "c" st0 false).trace =
      [Event.checkExisting, Event.constructEv 0, Event.initStart, Event.initEnd,
       Event.storeEv (getClientKey "c" "agent")] := by
  decide

/-- Claim C4: two sequential createClient calls for the same fresh key both
succeed with the same session; the first call performs exactly one
construction and one initialization, and the second call performs no
construction, no initialization and no store, leaving the state unchanged. -/
theorem claim4_sequential_idempotent (rt : Runtime) (cid : String)
    (st : ManagerState)
    (h : mapGet (getClientKey cid rt.agentId) st.clients = none) :
    ((createClientTwice rt cid st).1.res).isOk = true ∧
    (createClientTwice rt cid st).2.res = (createClientTwice rt cid st).1.res ∧
    ((createClientTwice rt cid st).1.trace.countP Event.isConstruct) = 1 ∧
    ((createClientTwice rt cid st).1.trace.countP Event.isInitStart) = 1 ∧
    ((createClientTwice rt cid st).2.trace.countP Event.isConstruct) = 0 ∧
    ((createClientTwice rt cid st).2.trace.countP Event.isInitStart) = 0 ∧
    ((createClientTwice rt cid st).2.trace.countP Event.isStoreEv) = 0 ∧
    (createClientTwice rt cid st).2.st = (createClientTwice rt cid st).1.st := by
  have h1 := createClient_of_none_ok rt cid st h
  have hrt : (createClient rt cid st false).rt = (normalize2fa rt).1 := by
    rw [h1]
  have hs : mapGet (getClientKey cid ((normalize2fa rt).1).agentId)
      (((createClient rt cid st false).st).clients) =
      some (mkTwitterClient ((normalize2fa rt).1) st.nextId) := by
    rw [h1, normalize2fa_agentId]
    exact mapGet_mapSet_self _ _ _
  have h2 := createClient_of_some ((normalize2fa rt).1) cid
    ((createClient rt cid st false).st) false
    (mkTwitterClient ((normalize2fa rt).1) st.nextId) hs
  have h1' : (createClientTwice rt cid st).1 = createClient rt cid st false := rfl
  have h2' : (createClientTwice rt cid st).2 =
      ⟨Except.ok (mkTwitterClient ((normalize2fa rt).1) st.nextId),
       (normalize2fa ((normalize2fa rt).1)).1,
       (createClient rt cid st false).st,
       (normalize2fa ((normalize2fa rt).1)).2 ++ [Event.checkExisting]⟩ := by
    show createClient (createClient rt cid st false).rt cid
      (createClient rt cid st false).st false = _
    rw [hrt]
    exact h2
  refine ⟨?_, ?_, ?_, ?_, ?_, ?_, ?_, ?_⟩
  · rw [h1', h1]
    rfl
  · rw [h1', h2', h1]
  · rw [h1', h1]
    simp [List.countP_append, List.countP_cons, Event.isConstruct,
      countP_normalize2fa rt Event.isConstruct rfl]
  · rw [h1', h1]
    simp [List.countP_append, List.countP_cons, Event.isInitStart,
      countP_normalize2fa rt Event.isInitStart rfl]
  · rw [h2']
    simp [List.countP_append, List.countP_cons, Event.isConstruct,
      countP_normalize2fa ((normalize2fa rt).1) Event.isConstruct rfl]
  · rw [h2']
    simp [List.countP_append, List.countP_cons, Event.isInitStart,
      countP_normalize2fa ((normalize2fa rt).1) Event.isInitStart rfl]
  · rw [h2']
    simp [List.countP_append, List.countP_cons, Event.isStoreEv,
      countP_normalize2fa ((normalize2fa rt).1) Event.isStoreEv rfl]
  · rw [h1', h2']

/-- Claim C4, witness at a concrete fresh key. -/
theorem claim4_witness :
    ((createClientTwice rt0 "c" st0).1.res).isOk = true ∧
    (createClientTwice rt0 "c" st0).2.res = (createClientTwice rt0 "c" st0).1.res ∧
    ((createClientTwice rt0 "c" st0).1.trace.countP Event.isConstruct) = 1 ∧
    ((createClientTwice rt0 "c" st0).1.trace.countP Event.isInitStart) = 1 ∧
    ((createClientTwice rt0 "c" st0).2.trace.countP Event.isConstruct) = 0 ∧
    ((createClientTwice rt0 "c" st0).2.trace.countP Event.isInitStart) = 0 ∧
    ((createClientTwice rt0 "c" st0).2.trace.countP Event.isStoreEv) = 0 ∧
    (createClientTwice rt0 "c" st0).2.st = (createClientTwice rt0 "c" st0).1.st :=
  claim4_sequential_idempotent rt0 "c" st0 (by decide)

/-- Claim C5: when the awaited initialization fails inside createClient on a
fresh key, the error propagates to the caller, the registry map is left
unchanged by the failed attempt, and a later createClient for the same key
is allowed to try again and constructs anew. -/
theorem claim5_failure_not_stored (rt : Runtime) (cid : String)
    (st : ManagerState)
    (h : mapGet (getClientKey cid rt.agentId) st.clients = none) :
    (createClient rt cid st true).res = Except.error () ∧
    ((createClient rt cid st true).st).clients = st.clients ∧
    ((createClient (createClient rt cid st true).rt cid
        (createClient rt cid st true).st false).res).isOk = true ∧
    ((createClient (createClient rt cid st true).rt cid
        (createClient rt cid st true).st false).trace.countP
      Event.isConstruct) = 1 := by
  have h1 := createClient_of_none_fail rt cid st h
  have hrt : (createClient rt cid st true).rt = (normalize2fa rt).1 := by
    rw [h1]
  have hst : (createClient rt cid st true).st =
      (⟨st.clients, st.nextId + 1⟩ : ManagerState) := by
    rw [h1]
  have h2none : mapGet (getClientKey cid ((normalize2fa rt).1).agentId)
      ((⟨st.clients, st.nextId + 1⟩ : ManagerState)).clients = none := by
    rw [normalize2fa_agentId]
    exact h
  have h2 := createClient_of_none_ok ((normalize2fa rt).1) cid
    ⟨st.clients, st.nextId + 1⟩ h2none
  refine ⟨by rw [h1], by rw [h1], ?_, ?_⟩
  · rw [hrt, hst, h2]
    rfl
  · rw [hrt, hst, h2]
    simp [List.countP_append, List.countP_cons, Event.isConstruct,
      countP_normalize2fa ((normalize2fa rt).1) Event.isConstruct rfl]

/-- Claim C5, witness at a concrete fresh key. -/
theorem claim5_witness :
    (createClient rt0 "c" st0 true).res = Except.error () ∧
    ((createClient rt0 "c" st0 true).st).clients = st0.clients ∧
    ((createClient (createClient rt0 "c" st0 true).rt "c"
        (createClient rt0 "c" st0 true).st false).res).isOk = true ∧
    ((createClient (createClient rt0 "c" st0 true).rt "c"
        (createClient rt0 "c" st0 true).st false).trace.countP
      Event.isConstruct) = 1 :=
  claim5_failure_not_stored rt0 "c" st0 (by decide)

/-- Claim C6: when the key is present, stopClient invokes the stored session
stop operation; if stop returns normally the entry is removed; if stop throws
the entry is left in place, the error is logged, and the state is otherwise
unchanged.  stopClient itself is a total function of the model, so the error
is never re-raised to its caller. -/
theorem claim6_stopClient_behavior (cid aid : String) (st : ManagerState)
    (f : Session → Bool) (c : Session)
    (h : mapGet (getClientKey cid aid) st.clients = some c) :
    Event.stopEv c.id ∈ (stopClient cid aid st f).2 ∧
    (f c = true →
      (stopClient cid aid st f).1 = st ∧
      Event.logErrorEv ∈ (stopClient cid aid st f).2 ∧
      mapGet (getClientKey cid aid) (((stopClient cid aid st f).1).clients) =
        some c) ∧
    (f c = false →
      mapGet (getClientKey cid aid) (((stopClient cid aid st f).1).clients) =
        none) := by
  unfold stopClient
  rw [h]
  by_cases hf : f c
  · simp [hf, h]
  · simp [hf, mapGet_mapDelete_self]

/-- Claim C6, witness: on a registry holding one session, a throwing stop
leaves the entry in place and logs, while a normally returning stop removes
the entry. -/
theorem claim6_witness :
    Event.stopEv sessW.id ∈
      (stopClient "c" "agent" stReuse (fun _ => true)).2 ∧
    (stopClient "c" "agent" stReuse (fun _ => true)).1 = stReuse ∧
    mapGet (getClientKey "c" "agent")
      (((stopClient "c" "agent" stReuse (fun _ => false)).1).clients) = none := by
  refine ⟨?_, ?_, ?_⟩
  · exact (claim6_stopClient_behavior "c" "agent" stReuse (fun _ => true) sessW
      (by decide)).1
  · exact ((claim6_stopClient_behavior "c" "agent" stReuse (fun _ => true) sessW
      (by decide)).2.1 rfl).1
  · exact (claim6_stopClient_behavior "c" "agent" stReuse (fun _ => false) sessW
      (by decide)).2.2 rfl

/-- Claim C7: stopAllClients attempts the stop of every entry of the current
registry snapshot independently; every entry is visited (its stop event is in
the trace) even when an earlier entry throws, every entry whose stop returns
normally is removed, and every entry whose stop throws remains stored
unchanged.  stopAllClients is a total function of the model, so no exception
escapes it. -/
theorem claim7_stopAll_isolation (st : ManagerState) (f : Session → Bool)
    (hnd : (st.clients.map Prod.fst).Nodup) :
    ∀ kc ∈ st.clients,
      Event.stopEv kc.2.id ∈ (stopAllClients st f).2 ∧
      (f kc.2 = false →
        mapGet kc.1 (((stopAllClients st f).1).clients) = none) ∧
      (f kc.2 = true →
        mapGet kc.1 (((stopAllClients st f).1).clients) = some kc.2) := by
  intro kc hkc
  exact stopAllAux_spec f st.clients st hnd
    (fun kc2 h2 => mapGet_of_mem_nodup kc2.1 kc2.2 st.clients hnd h2) kc hkc

/-- Claim C7, witness: with two stored sessions where the first throws on
stop and the second stops normally, both stops are attempted, the throwing
entry remains and the succeeding entry is removed. -/
theorem claim7_witness :
    (Event.stopEv sessA.id ∈ (stopAllClients stTwo throwsOnA).2 ∧
     mapGet "k1" (((stopAllClients stTwo throwsOnA).1).clients) = some sessA) ∧
    (Event.stopEv sessB.id ∈ (stopAllClients stTwo throwsOnA).2 ∧
     mapGet "k2" (((stopAllClients stTwo throwsOnA).1).clients) = none) := by
  refine ⟨⟨?_, ?_⟩, ⟨?_, ?_⟩⟩
  · exact (claim7_stopAll_isolation stTwo throwsOnA (by decide)
      ("k1", sessA) (by decide)).1
  · exact (claim7_stopAll_isolation stTwo throwsOnA (by decide)
      ("k1", sessA) (by decide)).2.2 (by decide)
  · exact (claim7_stopAll_isolation stTwo throwsOnA (by decide)
      ("k2", sessB) (by decide)).1
  · exact (claim7_stopAll_isolation stTwo throwsOnA (by decide)
      ("k2", sessB) (by decide)).2.1 (by decide)

/-- Claim C10: whenever the stored TWITTER_2FA_SECRET setting reads as null,
createClient overwrites it with undefined, and the write happens before the
existence check (the first two trace events are the setting write and the
check); in particular the write also happens on the reuse path, where an
existing session is returned with no construction or initialization. -/
theorem claim10_twofa_mutation (rt : Runtime) (cid : String)
    (st : ManagerState) (b : Bool)
    (h : rt.settings "TWITTER_2FA_SECRET" = JVal.jnull) :
    ((createClient rt cid st b).rt).settings "TWITTER_2FA_SECRET" =
      JVal.undef ∧
    (createClient rt cid st b).trace.take 2 =
      [Event.setSettingEv "TWITTER_2FA_SECRET", Event.checkExisting] ∧
    (∀ c : Session, mapGet (getClientKey cid rt.agentId) st.clients = some c →
      (createClient rt cid st b).res = Except.ok c) := by
  have hn : normalize2fa rt =
      (setSetting rt "TWITTER_2FA_SECRET" JVal.undef,
       [Event.setSettingEv "TWITTER_2FA_SECRET"]) := by
    simp [normalize2fa, h]
  cases hm : mapGet (getClientKey cid rt.agentId) st.clients with
  | some c =>
      have hc := createClient_of_some rt cid st b c hm
      refine ⟨?_, ?_, ?_⟩
      · rw [hc]
        show ((normalize2fa rt).1).settings "TWITTER_2FA_SECRET" = JVal.undef
        rw [hn]
        simp [setSetting]
      · rw [hc]
        show ((normalize2fa rt).2 ++ [Event.checkExisting]).take 2 = _
        rw [hn]
        rfl
      · intro c2 hc2
        injection hc2 with he
        rw [hc, he]
  | none =>
      cases b with
      | true =>
          have hc := createClient_of_none_fail rt cid st hm
          refine ⟨?_, ?_, ?_⟩
          · rw [hc]
            show ((normalize2fa rt).1).settings "TWITTER_2FA_SECRET" = JVal.undef
            rw [hn]
            simp [setSetting]
          · rw [hc]
            show ((normalize2fa rt).2 ++
              [Event.checkExisting, Event.constructEv st.nextId,
               Event.initStart]).take 2 = _
            rw [hn]
            rfl
          · intro c2 hc2
            cases hc2
      | false =>
          have hc := createClient_of_none_ok rt cid st hm
          refine ⟨?_, ?_, ?_⟩
          · rw [hc]
            show ((normalize2fa rt).1).settings "TWITTER_2FA_SECRET" = JVal.undef
            rw [hn]
            simp [setSetting]
          · rw [hc]
            show ((normalize2fa rt).2 ++
              [Event.checkExisting, Event.constructEv st.nextId,
               Event.initStart, Event.initEnd,
               Event.storeEv (getClientKey cid rt.agentId)]).take 2 = _
            rw [hn]
            rfl
          · intro c2 hc2
            cases hc2

/-- Claim C10, witness: on a runtime whose two-factor setting reads null and
a registry already holding the key, the reuse path returns the existing
session and still mutates the setting to undefined, writing it before the
existence check. -/
theorem claim10_witness :
    ((createClient rtNull2fa "c" stReuse false).rt).settings
      "TWITTER_2FA_SECRET" = JVal.undef ∧
    (createClient rtNull2fa "c" stReuse false).trace.take 2 =
      [Event.setSettingEv "TWITTER_2FA_SECRET", Event.checkExisting] ∧
    (createClient rtNull2fa "c" stReuse false).res = Except.ok sessW :=
  ⟨(claim10_twofa_mutation rtNull2fa "c" stReuse false (by decide)).1,
   (claim10_twofa_mutation rtNull2fa "c" stReuse false (by decide)).2.1,
   (claim10_twofa_mutation rtNull2fa "c" stReuse false (by decide)).2.2 sessW
     (by decide)⟩
